import Mathlib

/-!
Shallow embedding of the tyre-degradation estimation engine
(`src/bayesian_tyre_model.py`) of the f1-race-replay repository.

Numeric values are modelled over `ℚ` (the Python code computes with floats;
the rational semantics is the exact idealization of the arithmetic the code
writes down).  Pandas timedeltas are modelled as integer nanoseconds, their
`dt.total_seconds()` conversion as division by 10^9.  Missing values
(`NaN` / absent column) are modelled with `Option`.  A pandas `DataFrame` of
lap records is modelled as a `List` of records; `sort_values` is modelled
with `List.mergeSort`.
-/

attribute [local semireducible] Rat.mul Rat.inv Rat.add Rat.sub

namespace F1Replay

/-- Lexicographic code-point order on character lists: how Python / pandas
compare strings. -/
def charListLt : List Char → List Char → Bool
  | [], [] => false
  | [], _ :: _ => true
  | _ :: _, [] => false
  | a :: as, b :: bs => decide (a < b) || (decide (a = b) && charListLt as bs)

/-- Strict lexicographic string order by code points. -/
def strLt (a b : String) : Bool := charListLt a.data b.data

/-- `TyreCategory` enum of the source (`SLICK`, `INTER`, `WET`). -/
inductive TyreCategory
  | SLICK
  | INTER
  | WET
deriving DecidableEq, Fintype

/-- `TrackCondition` enum of the source (`DRY`, `DAMP`, `WET`). -/
inductive TrackCondition
  | DRY
  | DAMP
  | WET
deriving DecidableEq, Fintype

/-- `TyreProfile` dataclass: per-compound parameters. -/
structure TyreProfile where
  name : String
  category : TyreCategory
  degradation_rate : ℚ
  reset_pace : ℚ
  warmup_laps : ℕ
  max_analysis_laps : Option ℕ
  max_degradation : ℚ
deriving DecidableEq

/-- The default mismatch-penalty table built in `StateSpaceConfig.__post_init__`. -/
def defaultMismatchPenalties : List ((TyreCategory × TrackCondition) × ℚ) :=
  [((TyreCategory.SLICK, TrackCondition.DAMP), 2),
   ((TyreCategory.SLICK, TrackCondition.WET), 8),
   ((TyreCategory.INTER, TrackCondition.DRY), 3/2),
   ((TyreCategory.INTER, TrackCondition.WET), 1/2),
   ((TyreCategory.WET, TrackCondition.DRY), 4),
   ((TyreCategory.WET, TrackCondition.DAMP), 1),
   ((TyreCategory.SLICK, TrackCondition.DRY), 0),
   ((TyreCategory.INTER, TrackCondition.DAMP), 0),
   ((TyreCategory.WET, TrackCondition.WET), 0)]

/-- `StateSpaceConfig` dataclass.  `mismatch_penalties = None` in Python is
resolved by `__post_init__` to the default table; here the field always holds
the resolved table. -/
structure StateSpaceConfig where
  sigma_epsilon : ℚ
  sigma_eta : ℚ
  fuel_effect_prior : ℚ
  starting_fuel : ℚ
  fuel_burn_rate : ℚ
  enable_warmup : Bool
  enable_track_abrasion : Bool
  debug_logging : Bool
  mismatch_penalties : List ((TyreCategory × TrackCondition) × ℚ)
deriving DecidableEq

/-- The all-defaults configuration (`StateSpaceConfig()` in Python):
sigma_epsilon 0.3, sigma_eta 0.1, fuel_effect_prior 0.032, starting_fuel 110,
fuel_burn_rate 1.6, both toggles on, debug off, default penalty table. -/
def defaultConfig : StateSpaceConfig :=
  ⟨3/10, 1/10, 4/125, 110, 8/5, true, true, false, defaultMismatchPenalties⟩

/-- A raw lap record as handed to `fit` / `predict_next_lap` (a row of the
caller's DataFrame).  `lapTime` is a timedelta in whole nanoseconds (pandas
representation); `none` models a missing (`NaN`) value, likewise for
`compound`.  `trackCondition = none` models an absent column / missing value. -/
structure Lap where
  driver : String
  lapNumber : ℕ
  lapTime : Option ℤ
  compound : Option String
  stint : ℕ
  trackCondition : Option String
deriving DecidableEq

/-- A prepared lap record (row of the frame returned by `_prepare_data`). -/
structure PLap where
  driver : String
  lapNumber : ℕ
  lapTimeSeconds : ℚ
  compound : String
  stint : ℕ
  trackCondition : String
  fuelMass : ℚ
deriving DecidableEq

/-- `Timedelta.dt.total_seconds()`: nanoseconds to seconds. -/
def totalSeconds (t : ℤ) : ℚ := (t : ℚ) / 1000000000

/-- The valid track-condition labels (`valid_conditions` in `_prepare_data`). -/
def validConditions : List String := ["DRY", "DAMP", "WET"]

/-- `_prepare_data`'s normalization: any value outside the valid set
(including a missing value / absent column) becomes `"DRY"`. -/
def normCondition : Option String → String
  | some s => if s ∈ validConditions then s else "DRY"
  | none => "DRY"

/-- The row filter of `_prepare_data`:
`(LapNumber > 1) & LapTime.notna() & Compound.notna()`. -/
def validLapB (l : Lap) : Bool :=
  decide (1 < l.lapNumber) && l.lapTime.isSome && l.compound.isSome

/-- The per-row computation of `_prepare_data` on a row that passes the
filter: normalized track condition, lap time in seconds, fuel mass
`max(0, starting_fuel - (LapNumber - 1) * fuel_burn_rate)`. -/
def transformLap (cfg : StateSpaceConfig) (l : Lap) : PLap :=
  ⟨l.driver, l.lapNumber, totalSeconds (l.lapTime.getD 0), l.compound.getD "",
   l.stint, normCondition l.trackCondition,
   max 0 (cfg.starting_fuel - ((l.lapNumber : ℚ) - 1) * cfg.fuel_burn_rate)⟩

/-- Filter + per-row transformation of `_prepare_data`, fused. -/
def toPLap (cfg : StateSpaceConfig) (l : Lap) : Option PLap :=
  if validLapB l then some (transformLap cfg l) else none

/-- The `(Driver, LapNumber)` sort order of `_prepare_data` as a proposition. -/
def keyRel (a b : PLap) : Prop :=
  strLt a.driver b.driver = true ∨ (a.driver = b.driver ∧ a.lapNumber ≤ b.lapNumber)

instance (a b : PLap) : Decidable (keyRel a b) := by
  unfold keyRel; infer_instance

/-- `_prepare_data`: filter invalid rows, normalize, derive seconds and fuel
mass, sort by `(Driver, LapNumber)`.  (`sort_values` is modelled by a
stable structural sort.) -/
def prepareData (cfg : StateSpaceConfig) (df : List Lap) : List PLap :=
  List.insertionSort keyRel (df.filterMap (toPLap cfg))

/-! ### Robust statistics: `np.median` and `scipy.stats.theilslopes` -/

/-- `np.median`: sort ascending; middle element for odd length, mean of the
two middle elements for even length.  (Only ever applied to non-empty lists
by the source.) -/
def median (l : List ℚ) : ℚ :=
  let s := List.insertionSort (fun a b : ℚ => a ≤ b) l
  let n := l.length
  if n % 2 = 1 then s.getD (n / 2) 0
  else (s.getD (n / 2 - 1) 0 + s.getD (n / 2) 0) / 2

/-- All pairwise slopes `(y_j - y_i) / (x_j - x_i)` over index pairs `i < j`
with `x_i ≠ x_j`, over a list of `(x, y)` points. -/
def pairSlopes : List (ℚ × ℚ) → List ℚ
  | [] => []
  | p :: rest =>
      rest.filterMap
        (fun q => if q.1 = p.1 then none else some ((q.2 - p.2) / (q.1 - p.1)))
        ++ pairSlopes rest

/-- `scipy.stats.theilslopes(y, x)[0]`: the median of all pairwise slopes. -/
def theilSlope (y x : List ℚ) : ℚ := median (pairSlopes (x.zip y))

/-- The `LapOnTyre` axis `1, 2, …, n` assigned to a stint of `n` laps. -/
def lapOnTyreAxis (n : ℕ) : List ℚ := (List.range n).map fun i => (i : ℚ) + 1

/-- Fuel-corrected lap times of a stint:
`LapTimeSeconds - fuel_effect * FuelMass`. -/
def fuelCorrected (fe : ℚ) (laps : List PLap) : List ℚ :=
  laps.map fun l => l.lapTimeSeconds - fe * l.fuelMass

/-- Delta of each value from the first value of the list. -/
def deltaFromFirst (vs : List ℚ) : List ℚ :=
  vs.map fun v => v - vs.headD 0

/-- Whether a list of values has non-zero spread (`std > 0` for the
non-degenerate lengths at which the source evaluates it):
some element differs from the first. -/
def hasSpread (vs : List ℚ) : Bool :=
  vs.any fun v => !(v == vs.headD 0)

/-- `Series.unique()`: the distinct values in first-appearance order. -/
def uniqueKeys {α : Type} [DecidableEq α] (l : List α) : List α :=
  l.foldl (fun acc x => if x ∈ acc then acc else acc ++ [x]) []

/-! ### Track abrasion estimator (`estimate_track_abrasion`) -/

/-- `_abrasion_baseline`: HARD 0.003, MEDIUM 0.009, SOFT 0.015. -/
def abrasionBaseline : List (String × ℚ) :=
  [("HARD", 3/1000), ("MEDIUM", 9/1000), ("SOFT", 3/200)]

/-- One abrasion sample from a single (compound, driver, stint) group:
requires at least 8 laps, non-zero spread of the fuel-corrected deltas, and
a positive Theil-Sen slope; the sample is `slope / base_rate`. -/
def stintAbrasionSample (fe base : ℚ) (sl : List PLap) : Option ℚ :=
  if sl.length < 8 then none
  else
    let delta := deltaFromFirst (fuelCorrected fe sl)
    if hasSpread delta then
      let slope := theilSlope delta (lapOnTyreAxis sl.length)
      if 0 < slope then some (slope / base) else none
    else none

/-- All abrasion samples gathered by `estimate_track_abrasion`: for each
baseline slick compound, each driver (of that compound's dry laps), each
stint, at most one sample. -/
def abrasionSamples (fe : ℚ) (df : List PLap) : List ℚ :=
  abrasionBaseline.flatMap fun cb =>
    let slick := df.filter fun l => l.compound == cb.1 && l.trackCondition == "DRY"
    (uniqueKeys (slick.map (·.driver))).flatMap fun drv =>
      let dl := slick.filter fun l => l.driver == drv
      (uniqueKeys (dl.map (·.stint))).filterMap fun st =>
        stintAbrasionSample fe cb.2 (dl.filter fun l => l.stint == st)

/-- The (compound, driver, stint) groups with at least 8 laps that
`estimate_track_abrasion` inspects — the "qualifying slick/dry stints". -/
def abrasionQualStints (df : List PLap) : List (List PLap) :=
  abrasionBaseline.flatMap fun cb =>
    let slick := df.filter fun l => l.compound == cb.1 && l.trackCondition == "DRY"
    (uniqueKeys (slick.map (·.driver))).flatMap fun drv =>
      let dl := slick.filter fun l => l.driver == drv
      (uniqueKeys (dl.map (·.stint))).filterMap fun st =>
        let sl := dl.filter fun l => l.stint == st
        if sl.length < 8 then none else some sl

/-! ### Parameter estimator (`_estimate_parameters`) -/

/-- One degradation-slope sample from a single (compound, driver, stint)
group, mirroring the source's guards: at least 5 laps in the stint, more
than 2 analysis laps, a non-empty axis, non-zero spread of the deltas, and
a positive Theil-Sen slope (appended as `max 0 slope`). -/
def compoundStintSlope (fe : ℚ) (sl : List PLap) : Option ℚ :=
  if sl.length < 5 then none
  else
    let delta := deltaFromFirst (fuelCorrected fe sl)
    if 2 < sl.length then
      if 0 < sl.length ∧ hasSpread delta then
        let slope := theilSlope delta (lapOnTyreAxis sl.length)
        if 0 < slope then some (max 0 slope) else none
      else none
    else none

/-- All positive degradation slopes collected for one compound
(`compound_slopes[compound_name]` after the collection loop): empty when the
compound has fewer than 5 laps in total. -/
def compoundSlopes (fe : ℚ) (df : List PLap) (name : String) : List ℚ :=
  let claps := df.filter fun l => l.compound == name
  if claps.length < 5 then []
  else
    (uniqueKeys (claps.map (·.driver))).flatMap fun drv =>
      let dl := claps.filter fun l => l.driver == drv
      (uniqueKeys (dl.map (·.stint))).filterMap fun st =>
        compoundStintSlope fe (dl.filter fun l => l.stint == st)

/-! ### The model object (`BayesianTyreDegradationModel`) -/

/-- The mutable state of a `BayesianTyreDegradationModel` instance.
`latent_states` / `latent_uncertainty` are the per-driver histories
(`self._latent_states`, `self._latent_uncertainty`). -/
structure Model where
  config : StateSpaceConfig
  tyre_profiles : List (String × TyreProfile)
  fuel_effect : ℚ
  sigma_epsilon : ℚ
  sigma_eta : ℚ
  track_abrasion : ℚ
  latent_states : List (String × List ℚ)
  latent_uncertainty : List (String × List ℚ)
  fitted : Bool
deriving DecidableEq

/-- The hard-coded prior tyre-profile registry built in `__init__`. -/
def defaultProfiles : List (String × TyreProfile) :=
  [("HARD", ⟨"HARD", TyreCategory.SLICK, 1/100, 139/2, 3, none, 2⟩),
   ("MEDIUM", ⟨"MEDIUM", TyreCategory.SLICK, 3/100, 69, 3, none, 2⟩),
   ("SOFT", ⟨"SOFT", TyreCategory.SLICK, 1/20, 137/2, 1, some 10, 2⟩),
   ("INTERMEDIATE", ⟨"INTERMEDIATE", TyreCategory.INTER, 1/25, 75, 2, none, 3⟩),
   ("WET", ⟨"WET", TyreCategory.WET, 1/50, 80, 2, none, 5/2⟩)]

/-- `BayesianTyreDegradationModel.__init__`: prior profiles, fuel effect and
noise parameters from the configuration, abrasion factor 1.0, empty latent
histories, not fitted. -/
def initModel (cfg : StateSpaceConfig) : Model :=
  ⟨cfg, defaultProfiles, cfg.fuel_effect_prior, cfg.sigma_epsilon, cfg.sigma_eta,
   1, [], [], false⟩

/-- Dictionary lookup `self.tyre_profiles[compound]` /
`compound in self.tyre_profiles`. -/
def lookupProfile (m : Model) (c : String) : Option TyreProfile :=
  m.tyre_profiles.lookup c

/-- `estimate_track_abrasion`: the neutral factor 1.0 on fewer than 3
samples, otherwise the median of the samples clipped to [0.7, 1.4]. -/
def estimateTrackAbrasion (m : Model) (df : List PLap) : ℚ :=
  let samples := abrasionSamples m.fuel_effect df
  if samples.length < 3 then 1
  else max (7/10) (min (14/10) (median samples))

/-- `_estimate_parameters`: blend each compound's prior rate with the median
of its observed positive slopes (weights 0.3 / 0.7) when any exist. -/
def estimateParameters (m : Model) (df : List PLap) : Model :=
  { m with
    tyre_profiles := m.tyre_profiles.map fun nt =>
      let slopes := compoundSlopes m.fuel_effect df nt.1
      if 0 < slopes.length then
        (nt.1, { nt.2 with
          degradation_rate := 3/10 * nt.2.degradation_rate + 7/10 * median slopes })
      else nt }

/-- `condition_map.get(track_condition, TrackCondition.DRY)`. -/
def conditionOfLabel (s : String) : TrackCondition :=
  if s = "DRY" then TrackCondition.DRY
  else if s = "DAMP" then TrackCondition.DAMP
  else if s = "WET" then TrackCondition.WET
  else TrackCondition.DRY

/-- `_compute_mismatch_penalty`: 0.0 for an unknown compound, otherwise the
penalty-table entry for (compound category, mapped condition), defaulting
to 0.0. -/
def computeMismatchPenalty (m : Model) (compound : String) (tc : String) : ℚ :=
  match lookupProfile m compound with
  | none => 0
  | some t => ((m.config.mismatch_penalties.lookup (t.category, conditionOfLabel tc)).getD 0)

/-! ### Latent pace filter (`_compute_latent_states`) -/

/-- Observation-noise variance `obs_var = sigma_epsilon ** 2`. -/
def obsVar (m : Model) : ℚ := m.sigma_epsilon ^ 2

/-- Process-noise variance `proc_var = sigma_eta ** 2`. -/
def procVar (m : Model) : ℚ := m.sigma_eta ^ 2

/-- The per-driver filtering loop of `_compute_latent_states`, threading the
running `(mu_alpha, var_alpha, prev_stint)` state (`none` before the first
processed lap).  Unknown-compound laps are skipped without touching the
state; the first processed lap of a stint resets the state to
`(reset_pace, proc_var)`; any other lap performs the scalar Kalman update. -/
def latentFold (m : Model) : Option (ℚ × ℚ × ℕ) → List PLap → List (ℚ × ℚ)
  | _, [] => []
  | st, l :: rest =>
    match lookupProfile m l.compound with
    | none => latentFold m st rest
    | some tyre =>
      match st with
      | some (mu, va, ps) =>
        if l.stint = ps then
          let nu := tyre.degradation_rate * m.track_abrasion
          let muPred := mu + nu
          let varPred := va + procVar m
          let expectedLap := muPred + m.fuel_effect * l.fuelMass
          let innovation := l.lapTimeSeconds - expectedLap
          let gain := varPred / (varPred + obsVar m)
          let muNew := muPred + gain * innovation
          let vaNew := (1 - gain) * varPred
          (muNew, vaNew) :: latentFold m (some (muNew, vaNew, ps)) rest
        else
          (tyre.reset_pace, procVar m) ::
            latentFold m (some (tyre.reset_pace, procVar m, l.stint)) rest
      | none =>
        (tyre.reset_pace, procVar m) ::
          latentFold m (some (tyre.reset_pace, procVar m, l.stint)) rest

/-- Ordering of a driver's prepared laps by `LapNumber`
(`sort_values("LapNumber")`). -/
def lapNumRelP (a b : PLap) : Prop := a.lapNumber ≤ b.lapNumber

instance : DecidableRel lapNumRelP := fun a b => Nat.decLe a.lapNumber b.lapNumber

/-- The `(mean, variance)` history of one driver. -/
def computeDriverStates (m : Model) (laps : List PLap) : List (ℚ × ℚ) :=
  latentFold m none (List.insertionSort lapNumRelP laps)

/-- `_compute_latent_states`: rebuild both per-driver history dictionaries. -/
def computeLatentStates (m : Model) (df : List PLap) : Model :=
  let drivers := uniqueKeys (df.map (·.driver))
  { m with
    latent_states := drivers.map fun d =>
      (d, (computeDriverStates m (df.filter fun l => l.driver == d)).map Prod.fst),
    latent_uncertainty := drivers.map fun d =>
      (d, (computeDriverStates m (df.filter fun l => l.driver == d)).map Prod.snd) }

/-! ### `fit` -/

/-- The optional driver filter at the head of `fit`. -/
def fitInput (df : List Lap) (driver : Option String) : List Lap :=
  match driver with
  | some d => df.filter fun l => l.driver == d
  | none => df

/-- `fit`: optional driver filter, data preparation, early return on an
empty prepared table; otherwise abrasion estimation, parameter estimation,
latent-state computation, and setting the fitted flag. -/
def fit (m : Model) (df : List Lap) (driver : Option String) : Model :=
  let clean := prepareData m.config (fitInput df driver)
  if clean = [] then m
  else
    let m1 := { m with track_abrasion :=
      if m.config.enable_track_abrasion then estimateTrackAbrasion m clean else 1 }
    let m2 := estimateParameters m1 clean
    let m3 := computeLatentStates m2 clean
    { m3 with fitted := true }

/-! ### `predict_next_lap` -/

/-- The `info` dictionary returned by `predict_next_lap` (the Python value
of `category` is the enum's string value; here the enum itself). -/
structure PredictionInfo where
  health : ℤ
  laps_on_tyre : ℕ
  compound : String
  effective_degradation : ℚ
  mismatch_penalty : ℚ
  track_condition : String
  std_dev : ℚ
  latent_pace : ℚ
  category : TyreCategory
  track_abrasion : ℚ
deriving DecidableEq

/-- Ordering of raw laps by `LapNumber` (`sort_values('LapNumber')`). -/
def lapNumRel (a b : Lap) : Prop := a.lapNumber ≤ b.lapNumber

instance : DecidableRel lapNumRel := fun a b => Nat.decLe a.lapNumber b.lapNumber

/-- The driver's laps at or before the query lap, sorted by lap number. -/
def queryLaps (driver : String) (currentLap : ℕ) (df : List Lap) : List Lap :=
  List.insertionSort lapNumRel
    (df.filter fun l => l.driver == driver && decide (l.lapNumber ≤ currentLap))

instance exceptDecEq {ε α : Type _} [DecidableEq ε] [DecidableEq α] :
    DecidableEq (Except ε α) := fun a b => by
  cases a <;> cases b
  case error.error x y => exact decidable_of_iff (x = y) (by simp)
  case ok.ok x y => exact decidable_of_iff (x = y) (by simp)
  all_goals exact .isFalse (by simp)

/-- `track_condition or last_lap.get('TrackCondition', 'DRY')`: an explicit
argument wins unless it is falsy (the empty string); otherwise the last
lap's recorded condition, defaulting to `"DRY"`. -/
def resolveCondition (tc : Option String) (lastLap : Lap) : String :=
  let lapCond := lastLap.trackCondition.getD "DRY"
  match tc with
  | some s => if s = "" then lapCond else s
  | none => lapCond

/-- `predict_next_lap`.  `.error` models the `RuntimeError` raised before a
fit; `.ok none` models the empty `(None, None, {})` outcome; `.ok (some
(pace, std, info))` models a successful prediction triple. -/
def predictNextLap (m : Model) (driver : String) (currentLap : ℕ)
    (df : List Lap) (tc : Option String) :
    Except String (Option (ℚ × ℚ × PredictionInfo)) :=
  if m.fitted = false then .error "Model must be fitted before prediction"
  else
    let driverLaps := queryLaps driver currentLap df
    match driverLaps.getLast? with
    | none => .ok none
    | some lastLap =>
      match lastLap.compound with
      | none => .ok none
      | some comp =>
        match lookupProfile m comp with
        | none => .ok none
        | some tyre =>
          let stintLaps := driverLaps.filter fun l => l.stint == lastLap.stint
          let lapsOnTyre := stintLaps.length
          let abrasionFactor := m.track_abrasion
          let effectiveDegradation := tyre.degradation_rate * abrasionFactor
          let cond := resolveCondition tc lastLap
          let mismatchPenalty := computeMismatchPenalty m comp cond
          let maxLaps := tyre.max_degradation / max effectiveDegradation (1/1000)
          let effectiveLaps := (lapsOnTyre : ℚ) * (1 + mismatchPenalty / 5)
          let health := max 0 (min 100 (100 * (1 - effectiveLaps / maxLaps)))
          .ok (some (0, 0,
            ⟨⌊health⌋, lapsOnTyre, comp, effectiveDegradation, mismatchPenalty,
             cond, 0, 0, tyre.category, m.track_abrasion⟩))

/-! ### Specification-side formulations (stated from the spec's words, to be
compared with the source-side definitions above) -/

/-- The health formula as the specification states it:
`max_laps = max_degradation / max(effective_degradation, 0.001)`,
`effective_laps = laps_on_tyre × (1 + mismatch_penalty / 5)`,
health = `clamp(100 × (1 − effective_laps / max_laps), 0, 100)` truncated to
an integer (the clamped value is non-negative, so truncation is the floor). -/
def healthClaimed (maxdeg effdeg penalty : ℚ) (lapsOnTyre : ℕ) : ℤ :=
  let maxLaps := maxdeg / max effdeg (1/1000)
  let effectiveLaps := (lapsOnTyre : ℚ) * (1 + penalty / 5)
  ⌊max 0 (min 100 (100 * (1 - effectiveLaps / maxLaps)))⌋

/-- A qualifying stint's positive slope as the specification states it: at
least 5 laps, more than 2 analysis laps, non-constant fuel-corrected deltas,
and a positive Theil-Sen slope of delta versus lap-on-tyre (negative or zero
slopes contribute no sample). -/
def specStintSlope (fe : ℚ) (sl : List PLap) : Option ℚ :=
  if 5 ≤ sl.length ∧ 2 < sl.length ∧
      hasSpread (deltaFromFirst (fuelCorrected fe sl)) = true then
    let slope := theilSlope (deltaFromFirst (fuelCorrected fe sl)) (lapOnTyreAxis sl.length)
    if 0 < slope then some slope else none
  else none

/-- All qualifying positive slopes of a compound as the specification states
them (grouped by driver then stint; no compound-level row-count gate). -/
def specCompoundSlopes (fe : ℚ) (df : List PLap) (name : String) : List ℚ :=
  let claps := df.filter fun l => l.compound == name
  (uniqueKeys (claps.map (·.driver))).flatMap fun drv =>
    let dl := claps.filter fun l => l.driver == drv
    (uniqueKeys (dl.map (·.stint))).filterMap fun st =>
      specStintSlope fe (dl.filter fun l => l.stint == st)

/-- A lap whose compound is in the profile registry. -/
def knownLap (m : Model) (l : PLap) : Bool := (lookupProfile m l.compound).isSome

/-- The profile of a processed lap's compound. -/
def tyreOf (m : Model) (l : PLap) : TyreProfile :=
  (lookupProfile m l.compound).getD ⟨"", TyreCategory.SLICK, 0, 0, 0, none, 0⟩

/-- The filter state at the first processed lap of a stint, as the
specification states it: mean = compound's reset pace, variance =
process-noise variance. -/
def resetState (m : Model) (t : TyreProfile) : ℚ × ℚ := (t.reset_pace, m.sigma_eta ^ 2)

/-- One Kalman update, as the specification states it: predicted mean =
previous mean + degradation_rate × abrasion; predicted variance = previous
variance + process-noise variance; gain = predicted variance / (predicted
variance + observation-noise variance); updated mean = predicted mean +
gain × (observed seconds − (predicted mean + fuel_effect × fuel mass));
updated variance = (1 − gain) × predicted variance. -/
def kalmanStep (m : Model) (t : TyreProfile) (l : PLap) (prev : ℚ × ℚ) : ℚ × ℚ :=
  let muPred := prev.1 + t.degradation_rate * m.track_abrasion
  let varPred := prev.2 + m.sigma_eta ^ 2
  let gain := varPred / (varPred + m.sigma_epsilon ^ 2)
  (muPred + gain * (l.lapTimeSeconds - (muPred + m.fuel_effect * l.fuelMass)),
   (1 - gain) * varPred)

/-- The state emitted for the first processed lap seen while the filter
carries state `st`: a reset unless `st` is live and the stint continues. -/
def startStep (m : Model) (st : Option (ℚ × ℚ × ℕ)) (l : PLap) : ℚ × ℚ :=
  match st with
  | none => resetState m (tyreOf m l)
  | some (mu, va, ps) =>
    if l.stint = ps then kalmanStep m (tyreOf m l) l (mu, va)
    else resetState m (tyreOf m l)

/-- Placeholder lap used only as the default of out-of-range `List.getD`. -/
def blankLap : PLap := ⟨"", 0, 0, "", 0, "", 0⟩

/-! ### Concrete witness data -/

/-- The default model with the fitted flag set (any fitted model's
non-profile state is irrelevant to the witnesses that use this). -/
def cModel : Model := { initModel defaultConfig with fitted := true }

/-- Scenario C query data: driver "A" on MEDIUM, stint started at lap 5,
queried at lap 10 (6 laps on tyre), DRY condition.  Lap time 90 s. -/
def cLaps : List Lap :=
  [⟨"A", 5, some 90000000000, some "MEDIUM", 2, some "DRY"⟩,
   ⟨"A", 6, some 90000000000, some "MEDIUM", 2, some "DRY"⟩,
   ⟨"A", 7, some 90000000000, some "MEDIUM", 2, some "DRY"⟩,
   ⟨"A", 8, some 90000000000, some "MEDIUM", 2, some "DRY"⟩,
   ⟨"A", 9, some 90000000000, some "MEDIUM", 2, some "DRY"⟩,
   ⟨"A", 10, some 90000000000, some "MEDIUM", 2, some "DRY"⟩]

/-- The info record `predict_next_lap` produces for the Scenario C query. -/
def cInfo : PredictionInfo :=
  ⟨91, 6, "MEDIUM", 3/100, 0, "DRY", 0, 0, TyreCategory.SLICK, 1⟩

/-- The MEDIUM prior profile. -/
def mediumPrior : TyreProfile := ⟨"MEDIUM", TyreCategory.SLICK, 3/100, 69, 3, none, 2⟩

/-- The SOFT prior profile. -/
def softPrior : TyreProfile := ⟨"SOFT", TyreCategory.SLICK, 1/20, 137/2, 1, some 10, 2⟩

/-- Scenario B data: a single 6-lap SOFT stint (driver "B", laps 2-7) with a
constant raw lap time of 90 s; fuel burn-off makes the fuel-corrected times
trend cleanly upward at 0.032 × 1.6 = 0.0512 s/lap. -/
def softLaps : List Lap :=
  [⟨"B", 2, some 90000000000, some "SOFT", 1, some "DRY"⟩,
   ⟨"B", 3, some 90000000000, some "SOFT", 1, some "DRY"⟩,
   ⟨"B", 4, some 90000000000, some "SOFT", 1, some "DRY"⟩,
   ⟨"B", 5, some 90000000000, some "SOFT", 1, some "DRY"⟩,
   ⟨"B", 6, some 90000000000, some "SOFT", 1, some "DRY"⟩,
   ⟨"B", 7, some 90000000000, some "SOFT", 1, some "DRY"⟩]

/-- The prepared Scenario B table. -/
def cSoftClean : List PLap := prepareData defaultConfig softLaps

/-- The qualifying SOFT slopes of the prepared Scenario B table. -/
def cSoftSlopes : List ℚ := specCompoundSlopes (4/125) cSoftClean "SOFT"

/-- A table every row of which is removed by data preparation: a warm-up
lap, a lap with a missing time, and a lap with a missing compound. -/
def cInvalidLaps : List Lap :=
  [⟨"A", 1, some 90000000000, some "SOFT", 1, some "DRY"⟩,
   ⟨"A", 3, none, some "SOFT", 1, some "DRY"⟩,
   ⟨"A", 4, some 90000000000, none, 1, some "DRY"⟩]

/-- Two prepared laps of one stint, concrete input for the latent-filter
witness. -/
def cPLaps : List PLap :=
  [⟨"A", 2, 90, "MEDIUM", 1, "DRY", 5⟩,
   ⟨"A", 3, 91, "MEDIUM", 1, "DRY", 4⟩]

/-- The processed-lap list of the latent-filter witness input. -/
def cK : List PLap := (List.insertionSort lapNumRelP cPLaps).filter (knownLap cModel)

/-- The state history of the latent-filter witness input. -/
def cOut : List (ℚ × ℚ) := computeDriverStates cModel cPLaps

/-- The prepared row of the first Scenario B lap. -/
def cPrep0 : PLap :=
  transformLap defaultConfig ⟨"B", 2, some 90000000000, some "SOFT", 1, some "DRY"⟩

/-! ## Theorems -/

/-- Fusing `_prepare_data`'s filter and per-row transformation. -/
theorem filterMap_toPLap_eq (cfg : StateSpaceConfig) (df : List Lap) :
    df.filterMap (toPLap cfg) = (df.filter validLapB).map (transformLap cfg) := by
  induction df with
  | nil => rfl
  | cons l rest ih =>
    by_cases h : validLapB l = true
    · simp [toPLap, h, ih]
    · simp only [Bool.not_eq_true] at h
      simp [toPLap, h, ih]

/-- C4 (counterexample). The claim asserts the INTERMEDIATE-category /
WET-condition pair is a matched pair with penalty exactly 0.0; in the
default table built by `StateSpaceConfig.__post_init__` that entry is 0.5,
and `_compute_mismatch_penalty` on the default model reports 0.5 for an
INTERMEDIATE tyre on a WET track. -/
theorem c4_matched_pairs_counterexample :
    defaultMismatchPenalties.lookup (TyreCategory.INTER, TrackCondition.WET) = some (1/2) ∧
    computeMismatchPenalty (initModel defaultConfig) "INTERMEDIATE" "WET" = 1/2 ∧
    ((1 : ℚ)/2) ≠ 0 := by
  decide

/-- C4 (amended). The default Mismatch Penalty Table has 9 entries covering
every compound-category × track-condition pair; the matched pairs SLICK/DRY,
INTERMEDIATE/DAMP and WET/WET have penalty exactly 0.0; INTERMEDIATE/WET has
penalty 0.5; and SLICK/WET has the configured maximum penalty 8.0. -/
theorem c4_default_penalty_table :
    defaultMismatchPenalties.length = 9 ∧
    defaultMismatchPenalties.lookup (TyreCategory.SLICK, TrackCondition.DRY) = some 0 ∧
    defaultMismatchPenalties.lookup (TyreCategory.SLICK, TrackCondition.DAMP) = some 2 ∧
    defaultMismatchPenalties.lookup (TyreCategory.SLICK, TrackCondition.WET) = some 8 ∧
    defaultMismatchPenalties.lookup (TyreCategory.INTER, TrackCondition.DRY) = some (3/2) ∧
    defaultMismatchPenalties.lookup (TyreCategory.INTER, TrackCondition.DAMP) = some 0 ∧
    defaultMismatchPenalties.lookup (TyreCategory.INTER, TrackCondition.WET) = some (1/2) ∧
    defaultMismatchPenalties.lookup (TyreCategory.WET, TrackCondition.DRY) = some 4 ∧
    defaultMismatchPenalties.lookup (TyreCategory.WET, TrackCondition.DAMP) = some 1 ∧
    defaultMismatchPenalties.lookup (TyreCategory.WET, TrackCondition.WET) = some 0 := by
  decide

/-- C5. For every input, calling `predict_next_lap` on a model whose fitted
flag is not set fails with the not-fitted error and never returns a
prediction result. -/
theorem c5_not_fitted (m : Model) (d : String) (cl : ℕ) (df : List Lap)
    (tc : Option String) (h : m.fitted = false) :
    predictNextLap m d cl df tc = .error "Model must be fitted before prediction" := by
  simp [predictNextLap, h]

/-- C5 witness: the freshly constructed default model rejects a concrete
query. -/
theorem c5_not_fitted_witness :
    predictNextLap (initModel defaultConfig) "A" 1 [] none =
      .error "Model must be fitted before prediction" :=
  c5_not_fitted (initModel defaultConfig) "A" 1 [] none rfl

/-- C7. If every row of the input table is removed by data preparation
(because its lap number is ≤ 1, its lap time is missing, or its compound is
missing — i.e. `validLapB` fails), then `fit` returns the model unchanged;
and the freshly constructed model that state preserves has the fitted flag
unset, track abrasion 1.0, and the hard-coded prior profile registry. -/
theorem c7_fit_noop (m : Model) (df : List Lap) (drv : Option String)
    (cfg : StateSpaceConfig) (h : ∀ l ∈ df, validLapB l = false) :
    fit m df drv = m ∧ (initModel cfg).fitted = false ∧
    (initModel cfg).track_abrasion = 1 ∧
    (initModel cfg).tyre_profiles = defaultProfiles := by
  refine ⟨?_, rfl, rfl, rfl⟩
  have hall : ∀ l ∈ fitInput df drv, validLapB l = false := by
    cases drv with
    | none => exact h
    | some d => exact fun l hl => h l (List.mem_of_mem_filter hl)
  have hnil : (fitInput df drv).filterMap (toPLap m.config) = [] :=
    List.filterMap_eq_nil_iff.mpr fun l hl => by simp [toPLap, hall l hl]
  simp [fit, prepareData, hnil]

/-- C7 witness: a concrete table holding a warm-up lap, a missing-time lap
and a missing-compound lap leaves the fresh default model untouched. -/
theorem c7_fit_noop_witness :
    fit (initModel defaultConfig) cInvalidLaps none = initModel defaultConfig :=
  (c7_fit_noop (initModel defaultConfig) cInvalidLaps none defaultConfig (by decide)).1

/-- Lexicographic code-point order is transitive. -/
theorem charListLt_trans :
    ∀ (a b c : List Char), charListLt a b = true → charListLt b c = true →
      charListLt a c = true
  | [], [], _, hab, _ => by simp [charListLt] at hab
  | [], _ :: _, [], _, hbc => by simp [charListLt] at hbc
  | [], _ :: _, _ :: _, _, _ => by simp [charListLt]
  | _ :: _, [], _, hab, _ => by simp [charListLt] at hab
  | _ :: _, _ :: _, [], _, hbc => by simp [charListLt] at hbc
  | x :: as, y :: bs, z :: cs, hab, hbc => by
    simp only [charListLt, Bool.or_eq_true, Bool.and_eq_true, decide_eq_true_eq] at hab hbc ⊢
    rcases hab with h1 | ⟨he1, hr1⟩
    · rcases hbc with h2 | ⟨he2, hr2⟩
      · exact Or.inl (lt_trans h1 h2)
      · exact Or.inl (by rw [← he2]; exact h1)
    · rcases hbc with h2 | ⟨he2, hr2⟩
      · exact Or.inl (by rw [he1]; exact h2)
      · exact Or.inr ⟨he1.trans he2, charListLt_trans as bs cs hr1 hr2⟩

/-- Trichotomy for the lexicographic code-point order. -/
theorem charListLt_tri :
    ∀ (a b : List Char), charListLt a b = true ∨ a = b ∨ charListLt b a = true
  | [], [] => Or.inr (Or.inl rfl)
  | [], _ :: _ => Or.inl (by simp [charListLt])
  | _ :: _, [] => Or.inr (Or.inr (by simp [charListLt]))
  | x :: as, y :: bs => by
    rcases lt_trichotomy x y with h | h | h
    · exact Or.inl (by simp [charListLt, h])
    · rcases charListLt_tri as bs with h2 | h2 | h2
      · exact Or.inl (by simp [charListLt, h, h2])
      · exact Or.inr (Or.inl (by rw [h, h2]))
      · exact Or.inr (Or.inr (by simp [charListLt, h.symm, h2]))
    · exact Or.inr (Or.inr (by simp [charListLt, h]))

/-- String order transitivity. -/
theorem strLt_trans {a b c : String} (h1 : strLt a b = true) (h2 : strLt b c = true) :
    strLt a c = true :=
  charListLt_trans a.data b.data c.data h1 h2

/-- String order trichotomy. -/
theorem strLt_tri (a b : String) : strLt a b = true ∨ a = b ∨ strLt b a = true := by
  rcases charListLt_tri a.data b.data with h | h | h
  · exact Or.inl h
  · exact Or.inr (Or.inl (by cases a; cases b; exact congrArg String.mk h))
  · exact Or.inr (Or.inr h)

instance : IsTrans PLap keyRel := by
  constructor
  intro a b c hab hbc
  rcases hab with h1 | ⟨e1, n1⟩
  · rcases hbc with h2 | ⟨e2, n2⟩
    · exact Or.inl (strLt_trans h1 h2)
    · exact Or.inl (by rw [← e2]; exact h1)
  · rcases hbc with h2 | ⟨e2, n2⟩
    · exact Or.inl (by rw [e1]; exact h2)
    · exact Or.inr ⟨e1.trans e2, le_trans n1 n2⟩

instance : IsTotal PLap keyRel := by
  constructor
  intro a b
  rcases strLt_tri a.driver b.driver with h | h | h
  · exact Or.inl (Or.inl h)
  · rcases Nat.le_total a.lapNumber b.lapNumber with hn | hn
    · exact Or.inl (Or.inr ⟨h, hn⟩)
    · exact Or.inr (Or.inr ⟨h.symm, hn⟩)
  · exact Or.inr (Or.inl h)

/-- C8. Data preparation returns exactly the input rows that pass the
validity filter (lap number > 1, non-missing lap time, non-missing
compound), each transformed by the per-row normalization/derivation
(`transformLap`: condition normalized into {DRY, DAMP, WET}, lap time
converted to seconds, fuel mass `max(0, starting_fuel − (lap_number − 1) ×
burn_rate)`), sorted by (driver, lap number).  The model works on this new
table; the caller's table is untouched (the embedding is pure). -/
theorem c8_prepare_data (cfg : StateSpaceConfig) (df : List Lap) :
    (prepareData cfg df).Perm ((df.filter validLapB).map (transformLap cfg)) ∧
    (prepareData cfg df).Sorted keyRel ∧
    ∀ p ∈ prepareData cfg df,
      p.trackCondition ∈ validConditions ∧
      p.fuelMass = max 0 (cfg.starting_fuel - ((p.lapNumber : ℚ) - 1) * cfg.fuel_burn_rate) ∧
      1 < p.lapNumber := by
  have hperm : (prepareData cfg df).Perm (df.filterMap (toPLap cfg)) :=
    List.perm_insertionSort keyRel _
  refine ⟨by rw [filterMap_toPLap_eq] at hperm; exact hperm,
    List.sorted_insertionSort keyRel _, ?_⟩
  intro p hp
  have hp2 : p ∈ (df.filter validLapB).map (transformLap cfg) := by
    rw [← filterMap_toPLap_eq]; exact hperm.subset hp
  rcases List.mem_map.mp hp2 with ⟨l, hl, rfl⟩
  have hv : validLapB l = true := (List.mem_filter.mp hl).2
  have hln : 1 < l.lapNumber := by
    simp only [validLapB, Bool.and_eq_true, decide_eq_true_eq] at hv
    exact hv.1.1
  refine ⟨?_, rfl, hln⟩
  show normCondition l.trackCondition ∈ validConditions
  cases l.trackCondition with
  | none => simp [normCondition, validConditions]
  | some s =>
    simp only [normCondition]
    by_cases hs : s ∈ validConditions
    · rw [if_pos hs]; exact hs
    · rw [if_neg hs]; simp [validConditions]

/-- C8 witness: the first Scenario B row is prepared with an in-range
condition, the fuel-mass formula, and a post-warm-up lap number. -/
theorem c8_prepare_data_witness :
    cPrep0.trackCondition ∈ validConditions ∧
    cPrep0.fuelMass =
      max 0 (defaultConfig.starting_fuel -
        ((cPrep0.lapNumber : ℚ) - 1) * defaultConfig.fuel_burn_rate) ∧
    1 < cPrep0.lapNumber :=
  (c8_prepare_data defaultConfig softLaps).2.2 cPrep0 (by decide)

/-- Element-wise bounded `flatMap`s have bounded lengths. -/
theorem length_flatMap_mono {α β γ : Type} (l : List α) (f : α → List β) (g : α → List γ)
    (h : ∀ x ∈ l, (f x).length ≤ (g x).length) :
    (l.flatMap f).length ≤ (l.flatMap g).length := by
  induction l with
  | nil => simp
  | cons a rest ih =>
    simp only [List.flatMap_cons, List.length_append]
    exact Nat.add_le_add (h a (by simp)) (ih fun x hx => h x (by simp [hx]))

/-- A `filterMap` that succeeds only where another succeeds is no longer. -/
theorem length_filterMap_mono {α β γ : Type} (l : List α) (f : α → Option β) (g : α → Option γ)
    (h : ∀ x ∈ l, (f x).isSome = true → (g x).isSome = true) :
    (l.filterMap f).length ≤ (l.filterMap g).length := by
  induction l with
  | nil => simp
  | cons a rest ih =>
    have ih2 := ih fun x hx => h x (by simp [hx])
    cases hf : f a with
    | none =>
      cases hg : g a with
      | none => simpa [List.filterMap_cons, hf, hg] using ih2
      | some y =>
        simp only [List.filterMap_cons, hf, hg, List.length_cons]
        omega
    | some y =>
      have hga : (g a).isSome = true := h a (by simp) (by simp [hf])
      rcases Option.isSome_iff_exists.mp hga with ⟨z, hz⟩
      simp only [List.filterMap_cons, hf, hz, List.length_cons]
      omega

/-- Every abrasion sample comes from a distinct qualifying (≥ 8 laps)
slick/dry stint group. -/
theorem abrasionSamples_le_qualStints (fe : ℚ) (df : List PLap) :
    (abrasionSamples fe df).length ≤ (abrasionQualStints df).length := by
  unfold abrasionSamples abrasionQualStints
  refine length_flatMap_mono _ _ _ fun cb _ => ?_
  refine length_flatMap_mono _ _ _ fun drv _ => ?_
  refine length_filterMap_mono _ _ _ fun st _ hsome => ?_
  by_cases hlen :
    (((df.filter fun l => l.compound == cb.1 && l.trackCondition == "DRY").filter
        fun l => l.driver == drv).filter fun l => l.stint == st).length < 8
  · unfold stintAbrasionSample at hsome
    rw [if_pos hlen] at hsome
    simp at hsome
  · simp only [if_neg hlen, Option.isSome_some]

/-- C3.  The track abrasion factor starts at 1.0; `estimate_track_abrasion`
always lands in [0.7, 1.4]; it returns exactly 1.0 whenever fewer than 3
abrasion samples exist — in particular whenever fewer than 3 slick/dry
stints of at least 8 laps exist anywhere in the input — and otherwise
returns the median of the samples clamped to [0.7, 1.4]. -/
theorem c3_track_abrasion (cfg : StateSpaceConfig) (m : Model) (df : List PLap) :
    (initModel cfg).track_abrasion = 1 ∧
    (7/10 ≤ estimateTrackAbrasion m df ∧ estimateTrackAbrasion m df ≤ 14/10) ∧
    ((abrasionSamples m.fuel_effect df).length < 3 → estimateTrackAbrasion m df = 1) ∧
    (3 ≤ (abrasionSamples m.fuel_effect df).length →
      estimateTrackAbrasion m df =
        max (7/10) (min (14/10) (median (abrasionSamples m.fuel_effect df)))) ∧
    ((abrasionQualStints df).length < 3 → estimateTrackAbrasion m df = 1) := by
  have hb : 7/10 ≤ estimateTrackAbrasion m df ∧ estimateTrackAbrasion m df ≤ 14/10 := by
    unfold estimateTrackAbrasion
    by_cases hlt : (abrasionSamples m.fuel_effect df).length < 3
    · rw [if_pos hlt]
      constructor <;> norm_num
    · rw [if_neg hlt]
      exact ⟨le_max_left _ _, max_le (by norm_num) (min_le_left _ _)⟩
  refine ⟨rfl, hb, fun hlt => ?_, fun hge => ?_, fun hq => ?_⟩
  · rw [estimateTrackAbrasion, if_pos hlt]
  · rw [estimateTrackAbrasion, if_neg (by omega)]
  · have := abrasionSamples_le_qualStints m.fuel_effect df
    rw [estimateTrackAbrasion, if_pos (by omega)]

/-- C3 witness: a concrete model and the empty table (no qualifying stints)
yield the neutral factor. -/
theorem c3_track_abrasion_witness :
    estimateTrackAbrasion cModel [] = 1 :=
  (c3_track_abrasion defaultConfig cModel []).2.2.2.2 (by decide)

/-- C6.  On a fitted model, a query for a driver with no laps at or before
the queried lap, or whose most recent such lap carries a compound that is
missing or absent from the profile registry, returns the empty outcome
(`.ok none`) — it never raises. -/
theorem c6_empty_outcome (m : Model) (d : String) (cl : ℕ) (df : List Lap)
    (tc : Option String) (hf : m.fitted = true) :
    ((df.filter fun l => l.driver == d && decide (l.lapNumber ≤ cl)) = [] →
      predictNextLap m d cl df tc = .ok none) ∧
    (∀ lastLap, (queryLaps d cl df).getLast? = some lastLap →
      (lastLap.compound.bind fun c => lookupProfile m c) = none →
      predictNextLap m d cl df tc = .ok none) := by
  have hif : ¬ (m.fitted = false) := by simp [hf]
  constructor
  · intro hempty
    have hq : queryLaps d cl df = [] := by rw [queryLaps, hempty]; rfl
    simp only [predictNextLap, if_neg hif, hq, List.getLast?_nil]
  · intro lastLap hlast hcomp
    simp only [predictNextLap, if_neg hif, hlast]
    cases hc : lastLap.compound with
    | none => rfl
    | some c =>
      have hlp : lookupProfile m c = none := by
        rw [hc] at hcomp
        simpa using hcomp
      simp only [hlp]

/-- C6 witness: an unknown driver on a fitted model gets the empty outcome. -/
theorem c6_empty_outcome_witness :
    predictNextLap cModel "Z" 10 cLaps none = .ok none :=
  (c6_empty_outcome cModel "Z" 10 cLaps none rfl).1 (by decide)

/-- Characterization of a successful `predict_next_lap` call: the query
resolves to a last lap, a registered compound and its profile, the returned
pace and deviation are the constants 0.0, and the info record is built from
the closed-form quantities. -/
theorem predict_ok_char (m : Model) (d : String) (cl : ℕ) (df : List Lap)
    (tc : Option String) (p s : ℚ) (info : PredictionInfo)
    (hp : predictNextLap m d cl df tc = .ok (some (p, s, info))) :
    ∃ lastLap comp tyre,
      (queryLaps d cl df).getLast? = some lastLap ∧
      lastLap.compound = some comp ∧
      lookupProfile m comp = some tyre ∧
      p = 0 ∧ s = 0 ∧
      info =
        ⟨⌊max 0 (min 100 (100 * (1 -
            (((queryLaps d cl df).filter fun l => l.stint == lastLap.stint).length : ℚ) *
              (1 + computeMismatchPenalty m comp (resolveCondition tc lastLap) / 5) /
            (tyre.max_degradation /
              max (tyre.degradation_rate * m.track_abrasion) (1/1000)))))⌋,
         ((queryLaps d cl df).filter fun l => l.stint == lastLap.stint).length,
         comp, tyre.degradation_rate * m.track_abrasion,
         computeMismatchPenalty m comp (resolveCondition tc lastLap),
         resolveCondition tc lastLap, 0, 0, tyre.category, m.track_abrasion⟩ := by
  simp only [predictNextLap] at hp
  split at hp
  · exact absurd hp (by simp)
  · split at hp
    · exact absurd hp (by simp)
    · rename_i lastLap hql
      split at hp
      · exact absurd hp (by simp)
      · rename_i comp hcomp
        split at hp
        · exact absurd hp (by simp)
        · rename_i tyre hprof
          simp only [Except.ok.injEq, Option.some.injEq, Prod.mk.injEq] at hp
          exact ⟨lastLap, comp, tyre, hql, hcomp, hprof,
            hp.1.symm, hp.2.1.symm, hp.2.2.symm⟩

/-- C1.  Whenever `predict_next_lap` returns a non-empty result, its
reported health is the integer truncation of
`clamp(100 × (1 − effective_laps / max_laps), 0, 100)` with
`max_laps = max_degradation / max(effective_degradation, 0.001)` and
`effective_laps = laps_on_tyre × (1 + mismatch_penalty / 5)`, where
`effective_degradation = degradation_rate × abrasion_factor` — the formula
`healthClaimed` states the spec's arithmetic over the diagnostics the call
itself reports. -/
theorem c1_health_formula (m : Model) (d : String) (cl : ℕ) (df : List Lap)
    (tc : Option String) (p s : ℚ) (info : PredictionInfo) (t : TyreProfile)
    (hp : predictNextLap m d cl df tc = .ok (some (p, s, info)))
    (ht : lookupProfile m info.compound = some t) :
    info.health =
      healthClaimed t.max_degradation info.effective_degradation
        info.mismatch_penalty info.laps_on_tyre ∧
    info.effective_degradation = t.degradation_rate * m.track_abrasion := by
  rcases predict_ok_char m d cl df tc p s info hp with
    ⟨lastLap, comp, tyre, _, _, hprof, _, _, hinfo⟩
  subst hinfo
  have htt : t = tyre := by
    simp only at ht
    rw [hprof] at ht
    exact (Option.some.inj ht).symm
  subst htt
  exact ⟨rfl, rfl⟩

/-- C1 witness: Scenario C — driver "A" on MEDIUM, lap 10, stint started at
lap 5 (6 laps on tyre), default profile, abrasion 1.0, DRY, no mismatch —
the reported health satisfies the claimed formula and equals exactly 91. -/
theorem c1_health_formula_witness :
    cInfo.health =
      healthClaimed mediumPrior.max_degradation cInfo.effective_degradation
        cInfo.mismatch_penalty cInfo.laps_on_tyre ∧
    cInfo.health = 91 :=
  ⟨(c1_health_formula cModel "A" 10 cLaps none 0 0 cInfo mediumPrior
      (by decide) (by decide)).1, by decide⟩

/-- C10.  A non-empty `predict_next_lap` result always carries predicted
pace 0.0 and standard deviation 0.0, and its diagnostics report
`std_dev = 0.0` and `latent_pace = 0.0`; moreover the whole outcome is
determined solely by the profile registry, the abrasion factor, the penalty
table, the fitted flag and the query — two models agreeing on those agree on
every prediction, regardless of their Kalman latent-state histories. -/
theorem c10_predict_constants :
    (∀ (m : Model) (d : String) (cl : ℕ) (df : List Lap) (tc : Option String)
        (p s : ℚ) (info : PredictionInfo),
      predictNextLap m d cl df tc = .ok (some (p, s, info)) →
        p = 0 ∧ s = 0 ∧ info.std_dev = 0 ∧ info.latent_pace = 0) ∧
    (∀ (m m2 : Model) (d : String) (cl : ℕ) (df : List Lap) (tc : Option String),
      m.tyre_profiles = m2.tyre_profiles →
      m.track_abrasion = m2.track_abrasion →
      m.config.mismatch_penalties = m2.config.mismatch_penalties →
      m.fitted = m2.fitted →
      predictNextLap m d cl df tc = predictNextLap m2 d cl df tc) := by
  constructor
  · intro m d cl df tc p s info hp
    rcases predict_ok_char m d cl df tc p s info hp with
      ⟨lastLap, comp, tyre, _, _, _, hps, hss, hinfo⟩
    subst hinfo
    exact ⟨hps, hss, rfl, rfl⟩
  · intro m m2 d cl df tc h1 h2 h3 h4
    have hP : ∀ c tc0, computeMismatchPenalty m c tc0 = computeMismatchPenalty m2 c tc0 := by
      intro c tc0
      simp only [computeMismatchPenalty, lookupProfile, h1, h3]
    simp only [predictNextLap, lookupProfile, h1, h2, h3, h4, hP]

/-- C10 witness: the Scenario C call returns pace 0.0, deviation 0.0 and
zero-valued diagnostics. -/
theorem c10_predict_constants_witness :
    (0 : ℚ) = 0 ∧ (0 : ℚ) = 0 ∧ cInfo.std_dev = 0 ∧ cInfo.latent_pace = 0 :=
  c10_predict_constants.1 cModel "A" 10 cLaps none 0 0 cInfo (by decide)

/-- The source's per-stint slope guards coincide with the spec's qualifying
conditions; in particular the redundant `max 0` on an already-positive slope
is the identity, so negative slopes are discarded, not clamped and kept. -/
theorem compoundStintSlope_eq_spec (fe : ℚ) (sl : List PLap) :
    compoundStintSlope fe sl = specStintSlope fe sl := by
  simp only [compoundStintSlope, specStintSlope]
  by_cases h5 : sl.length < 5
  · rw [if_pos h5, if_neg]
    rintro ⟨h, -⟩
    omega
  · rw [if_neg h5]
    have h5a : 5 ≤ sl.length := by omega
    have h2 : 2 < sl.length := by omega
    have h0 : 0 < sl.length := by omega
    by_cases hs : hasSpread (deltaFromFirst (fuelCorrected fe sl)) = true
    · have hc1 : 0 < sl.length ∧ hasSpread (deltaFromFirst (fuelCorrected fe sl)) = true :=
        ⟨h0, hs⟩
      have hc2 : 5 ≤ sl.length ∧ 2 < sl.length ∧
          hasSpread (deltaFromFirst (fuelCorrected fe sl)) = true := ⟨h5a, h2, hs⟩
      rw [if_pos h2, if_pos hc1, if_pos hc2]
      by_cases hpos :
        0 < theilSlope (deltaFromFirst (fuelCorrected fe sl)) (lapOnTyreAxis sl.length)
      · rw [if_pos hpos, if_pos hpos, max_eq_right (le_of_lt hpos)]
      · rw [if_neg hpos, if_neg hpos]
    · rw [if_pos h2, if_neg, if_neg]
      · rintro ⟨-, -, hc⟩
        exact hs hc
      · rintro ⟨-, hc⟩
        exact hs hc

/-- The compound-level 5-row gate of the source is subsumed by the spec's
per-stint 5-lap gate: the collected positive slopes coincide. -/
theorem compoundSlopes_eq_spec (fe : ℚ) (df : List PLap) (name : String) :
    compoundSlopes fe df name = specCompoundSlopes fe df name := by
  simp only [compoundSlopes, specCompoundSlopes]
  by_cases h5 : (df.filter fun l => l.compound == name).length < 5
  · rw [if_pos h5]
    symm
    refine List.flatMap_eq_nil_iff.mpr fun drv _ => ?_
    refine List.filterMap_eq_nil_iff.mpr fun st _ => ?_
    have hle :
        (((df.filter fun l => l.compound == name).filter fun l => l.driver == drv).filter
          fun l => l.stint == st).length ≤
        (df.filter fun l => l.compound == name).length :=
      le_trans (List.length_filter_le _ _) (List.length_filter_le _ _)
    simp only [specStintSlope]
    rw [if_neg]
    rintro ⟨h, -⟩
    omega
  · rw [if_neg h5]
    simp only [compoundStintSlope_eq_spec]

/-- What `_estimate_parameters` does to each registry entry, through
`lookup`: the rate is blended 0.3/0.7 with the median of the qualifying
positive slopes when any exist, and kept otherwise. -/
theorem estimateParameters_lookup (m : Model) (df : List PLap) (name : String) :
    (estimateParameters m df).tyre_profiles.lookup name =
      (m.tyre_profiles.lookup name).map fun t =>
        if specCompoundSlopes m.fuel_effect df name = [] then t
        else { t with degradation_rate :=
          3/10 * t.degradation_rate + 7/10 * median (specCompoundSlopes m.fuel_effect df name) } := by
  simp only [estimateParameters]
  generalize m.tyre_profiles = L
  induction L with
  | nil => rfl
  | cons nt rest ih =>
    simp only [List.map_cons]
    by_cases hpos : 0 < (compoundSlopes m.fuel_effect df nt.1).length
    · rw [if_pos hpos]
      have hnn : specCompoundSlopes m.fuel_effect df nt.1 ≠ [] := by
        rw [← compoundSlopes_eq_spec]
        exact List.length_pos.mp hpos
      by_cases heq : name = nt.1
      · subst heq
        simp only [List.lookup, beq_self_eq_true, Option.map_some']
        rw [if_neg hnn, compoundSlopes_eq_spec]
      · have hbe : (name == nt.1) = false := beq_eq_false_iff_ne.mpr heq
        simp only [List.lookup, hbe, ih]
    · rw [if_neg hpos]
      have hn : specCompoundSlopes m.fuel_effect df nt.1 = [] := by
        rw [← compoundSlopes_eq_spec]
        simpa using Nat.le_zero.mp (Nat.not_lt.mp hpos)
      by_cases heq : name = nt.1
      · subst heq
        simp only [List.lookup, beq_self_eq_true, Option.map_some']
        rw [if_pos hn]
      · have hbe : (name == nt.1) = false := beq_eq_false_iff_ne.mpr heq
        simp only [List.lookup, hbe, ih]

/-- C2.  After a fit over a non-empty prepared table, each registered
compound's degradation rate becomes `0.3 × prior + 0.7 × median(positive
qualifying Theil-Sen slopes)` when at least one qualifying stint produced a
positive slope, and stays at its prior otherwise; and the blend lands the
new rate strictly toward the median (the gap to the median shrinks to 0.3×
the prior's gap). -/
theorem c2_parameter_blend (m : Model) (df : List Lap) (drv : Option String)
    (name : String) (t : TyreProfile) (clean : List PLap) (slopes : List ℚ)
    (hclean : clean = prepareData m.config (fitInput df drv))
    (hsl : slopes = specCompoundSlopes m.fuel_effect clean name)
    (hne : clean ≠ [])
    (ht : m.tyre_profiles.lookup name = some t) :
    (fit m df drv).tyre_profiles.lookup name =
      some (if slopes = [] then t
            else { t with degradation_rate :=
              3/10 * t.degradation_rate + 7/10 * median slopes }) ∧
    (3/10 * t.degradation_rate + 7/10 * median slopes) - median slopes =
      3/10 * (t.degradation_rate - median slopes) := by
  constructor
  · subst hclean
    subst hsl
    simp only [fit]
    rw [if_neg hne]
    simp only [computeLatentStates]
    rw [estimateParameters_lookup]
    show ((m.tyre_profiles.lookup name).map _) = _
    rw [ht]
    rfl
  · ring

/-- C2 witness: Scenario B — a single clean 6-lap SOFT stint.  The fitted
SOFT rate is the 0.3/0.7 blend of the prior 0.05 with the observed median
slope, and the blend's distance to the median is 0.3 of the prior's. -/
theorem c2_parameter_blend_witness :
    (fit (initModel defaultConfig) softLaps none).tyre_profiles.lookup "SOFT" =
      some (if cSoftSlopes = [] then softPrior
            else { softPrior with degradation_rate :=
              3/10 * softPrior.degradation_rate + 7/10 * median cSoftSlopes }) ∧
    (3/10 * softPrior.degradation_rate + 7/10 * median cSoftSlopes) - median cSoftSlopes =
      3/10 * (softPrior.degradation_rate - median cSoftSlopes) :=
  c2_parameter_blend (initModel defaultConfig) softLaps none "SOFT" softPrior
    cSoftClean cSoftSlopes rfl rfl (by decide) (by decide)

/-- An unknown-compound lap is skipped: it leaves the filter state untouched
and contributes no entry. -/
theorem latentFold_cons_unknown (m : Model) (st : Option (ℚ × ℚ × ℕ)) (l : PLap)
    (rest : List PLap) (hnone : lookupProfile m l.compound = none) :
    latentFold m st (l :: rest) = latentFold m st rest := by
  cases st with
  | none => simp only [latentFold, hnone]
  | some s => obtain ⟨mu, va, ps⟩ := s; simp only [latentFold, hnone]

/-- A known-compound lap emits `startStep` (reset at a stint boundary or at
the first processed lap, Kalman update otherwise) and threads that state,
together with its stint id, into the rest of the fold. -/
theorem latentFold_cons_known (m : Model) (st : Option (ℚ × ℚ × ℕ)) (l : PLap)
    (rest : List PLap) (tyre : TyreProfile)
    (htyre : lookupProfile m l.compound = some tyre) :
    latentFold m st (l :: rest) =
      startStep m st l ::
        latentFold m (some ((startStep m st l).1, (startStep m st l).2, l.stint)) rest := by
  cases st with
  | none =>
    simp only [latentFold, htyre, startStep, resetState, tyreOf, Option.getD_some, procVar]
  | some s =>
    obtain ⟨mu, va, ps⟩ := s
    by_cases hst : l.stint = ps
    · subst hst
      simp only [latentFold, htyre, startStep, kalmanStep, eq_self_iff_true, ite_true,
        procVar, obsVar, tyreOf, Option.getD_some]
    · simp only [latentFold, htyre, startStep, resetState, tyreOf, Option.getD_some,
        if_neg hst, procVar]

/-- Positional characterization of the per-driver latent fold: it emits one
state per known-compound lap; the first emitted state is `startStep` of the
incoming filter state, and each later state is a Kalman update of the
previous emitted state when the stint id repeats, and a reset otherwise. -/
theorem latentFold_char (m : Model) :
    ∀ (laps : List PLap) (st : Option (ℚ × ℚ × ℕ)),
      (latentFold m st laps).length = (laps.filter (knownLap m)).length ∧
      ∀ i, i < (laps.filter (knownLap m)).length →
        (latentFold m st laps).getD i (0, 0) =
          if i = 0 then
            startStep m st ((laps.filter (knownLap m)).getD i blankLap)
          else
            if ((laps.filter (knownLap m)).getD i blankLap).stint =
                ((laps.filter (knownLap m)).getD (i - 1) blankLap).stint then
              kalmanStep m (tyreOf m ((laps.filter (knownLap m)).getD i blankLap))
                ((laps.filter (knownLap m)).getD i blankLap)
                ((latentFold m st laps).getD (i - 1) (0, 0))
            else resetState m (tyreOf m ((laps.filter (knownLap m)).getD i blankLap))
  | [], st => ⟨rfl, fun i hi => absurd hi (by simp)⟩
  | l :: rest, st => by
    by_cases hk : knownLap m l = true
    · obtain ⟨tyre, htyre⟩ := Option.isSome_iff_exists.mp hk
      rw [latentFold_cons_known m st l rest tyre htyre, List.filter_cons_of_pos hk]
      have ih := latentFold_char m rest
        (some ((startStep m st l).1, (startStep m st l).2, l.stint))
      refine ⟨by simp [ih.1], fun i hi => ?_⟩
      cases i with
      | zero => simp
      | succ j =>
        have hj : j < (rest.filter (knownLap m)).length := by
          simpa using hi
        have IH := ih.2 j hj
        rw [List.getD_cons_succ, IH]
        cases j with
        | zero =>
          simp only [if_pos rfl, if_neg (Nat.succ_ne_zero 0), List.getD_cons_succ,
            List.getD_cons_zero, Nat.sub_self]
          rfl
        | succ j2 =>
          simp only [if_neg (Nat.succ_ne_zero j2), if_neg (Nat.succ_ne_zero (j2 + 1)),
            List.getD_cons_succ, Nat.succ_sub_one]
    · have hnone : lookupProfile m l.compound = none := by
        cases hlp : lookupProfile m l.compound with
        | none => rfl
        | some t => exact absurd (by simp [knownLap, hlp]) hk
      rw [latentFold_cons_unknown m st l rest hnone,
        List.filter_cons_of_neg (by simp [hk])]
      exact latentFold_char m rest st

/-- C9.  During fit, each driver's latent state history has one entry per
processed (registered-compound) lap of the driver's lap-number-sorted rows;
the entry at the first processed lap of each stint is the reset state
(compound's reset pace, process-noise variance), and every later entry of
the same stint is exactly the scalar Kalman update of the previous entry
(predicted mean/variance, gain, innovation against the fuel-adjusted
expectation).  Unknown-compound laps contribute no entry. -/
theorem c9_latent_filter (m : Model) (laps : List PLap) (k : List PLap)
    (out : List (ℚ × ℚ))
    (hk : k = (List.insertionSort lapNumRelP laps).filter (knownLap m))
    (ho : out = computeDriverStates m laps) :
    out.length = k.length ∧
    ∀ i, i < k.length →
      out.getD i (0, 0) =
        if i = 0 ∨ (k.getD i blankLap).stint ≠ (k.getD (i - 1) blankLap).stint then
          resetState m (tyreOf m (k.getD i blankLap))
        else
          kalmanStep m (tyreOf m (k.getD i blankLap)) (k.getD i blankLap)
            (out.getD (i - 1) (0, 0)) := by
  subst hk
  subst ho
  simp only [computeDriverStates]
  have H := latentFold_char m (List.insertionSort lapNumRelP laps) none
  refine ⟨H.1, fun i hi => ?_⟩
  have Hi := H.2 i hi
  rw [Hi]
  by_cases h0 : i = 0
  · subst h0
    rw [if_pos rfl, if_pos (Or.inl rfl)]
    rfl
  · rw [if_neg h0]
    by_cases hstint :
      (((List.insertionSort lapNumRelP laps).filter (knownLap m)).getD i blankLap).stint =
        (((List.insertionSort lapNumRelP laps).filter (knownLap m)).getD (i - 1) blankLap).stint
    · rw [if_pos hstint, if_neg]
      rintro (h | h)
      · exact h0 h
      · exact h hstint
    · rw [if_neg hstint, if_pos (Or.inr hstint)]

/-- C9 witness: on a concrete two-lap single-stint input, the second state
is exactly the Kalman update of the first. -/
theorem c9_latent_filter_witness :
    cOut.getD 1 (0, 0) =
      if 1 = 0 ∨ (cK.getD 1 blankLap).stint ≠ (cK.getD 0 blankLap).stint then
        resetState cModel (tyreOf cModel (cK.getD 1 blankLap))
      else
        kalmanStep cModel (tyreOf cModel (cK.getD 1 blankLap)) (cK.getD 1 blankLap)
          (cOut.getD 0 (0, 0)) :=
  (c9_latent_filter cModel cPLaps cK cOut rfl rfl).2 1 (by decide)

end F1Replay
